import Mathlib

/-!
Verification of the freight-shipment tracking core
(`src/server/src/classes/{WeatherCondition,ShipmentStatus,Vehicle,Flight,Report}.ts`
and `src/client/src/pages/ShipmentDetail.tsx`) against its specification.

The class hierarchies are embedded as closed sum types with pattern-matched
functions; JavaScript numbers are modelled as rationals (`ℚ`) where only
arithmetic and comparisons occur, and reals (`ℝ`) where trigonometry occurs.
-/

namespace Spec2Proof

/-- Impact severity levels (`ImpactLevel` in WeatherCondition.ts). -/
inductive ImpactLevel where
  | none
  | low
  | medium
  | high
  | critical
deriving DecidableEq, Repr

/-- Rain/snow intensity tier (the `'light' | 'moderate' | 'heavy'` union type). -/
inductive Intensity where
  | light
  | moderate
  | heavy
deriving DecidableEq, Repr

/-- Storm severity tier (the `'light' | 'moderate' | 'severe'` union type). -/
inductive Severity where
  | light
  | moderate
  | severe
deriving DecidableEq, Repr

/-- The closed hierarchy of `WeatherCondition` subclasses
(ClearWeather, CloudyWeather, RainWeather, StormWeather, FogWeather,
SnowWeather), each carrying the fields its constructor stores:
temperature, wind speed, humidity, plus the type-specific fields. -/
inductive WeatherCondition where
  | clear (temp wind humidity : ℚ)
  | cloudy (temp wind humidity cloudCoverage : ℚ)
  | rain (temp wind humidity : ℚ) (intensity : Intensity)
  | storm (temp wind humidity : ℚ) (severity : Severity) (hasLightning : Bool)
  | fog (temp wind humidity visibility : ℚ)
  | snow (temp wind humidity : ℚ) (intensity : Intensity) (accumulation : ℚ)
deriving DecidableEq, Repr

namespace WeatherCondition

/-- `assessImpact()` of each `WeatherCondition` subclass. -/
def assessImpact : WeatherCondition → ImpactLevel
  | .clear _ wind _ =>
      if wind > 15 then .low else .none
  | .cloudy _ wind _ cloudCoverage =>
      if cloudCoverage > 90 ∧ wind > 10 then .low else .none
  | .rain _ _ _ intensity =>
      if intensity = .heavy then .medium
      else if intensity = .moderate then .low
      else .none
  | .storm _ _ _ severity hasLightning =>
      if severity = .severe ∨ hasLightning then .critical
      else if severity = .moderate then .high
      else .medium
  | .fog _ _ _ visibility =>
      if visibility < 200 then .critical
      else if visibility < 500 then .high
      else if visibility < 1000 then .medium
      else if visibility < 2000 then .low
      else .none
  | .snow _ _ _ intensity accumulation =>
      if intensity = .heavy ∨ accumulation > 5 then .high
      else if intensity = .moderate then .medium
      else .low

/-- `getDelayFactor()` of each `WeatherCondition` subclass. -/
def getDelayFactor : WeatherCondition → ℚ
  | .clear _ wind _ =>
      if wind > 15 then 0.05 else 0
  | .cloudy _ _ _ cloudCoverage =>
      if cloudCoverage > 90 then 0.05 else 0
  | .rain _ _ _ intensity =>
      if intensity = .heavy then 0.2
      else if intensity = .moderate then 0.1
      else 0.05
  | .storm _ _ _ severity _ =>
      if severity = .severe then 0.5
      else if severity = .moderate then 0.3
      else 0.15
  | .fog _ _ _ visibility =>
      if visibility < 200 then 0.6
      else if visibility < 500 then 0.4
      else if visibility < 1000 then 0.25
      else if visibility < 2000 then 0.15
      else 0.05
  | .snow _ _ _ intensity _ =>
      if intensity = .heavy then 0.4
      else if intensity = .moderate then 0.25
      else 0.1

/-- `shouldGroundFlights()` of each `WeatherCondition` subclass. -/
def shouldGroundFlights : WeatherCondition → Bool
  | .clear _ wind _ => wind > 25
  | .cloudy _ _ _ _ => false
  | .rain _ wind _ intensity => intensity = .heavy ∧ wind > 15
  | .storm _ _ _ severity hasLightning => severity = .severe ∨ hasLightning
  | .fog _ _ _ visibility => visibility < 200
  | .snow _ _ _ intensity accumulation => intensity = .heavy ∧ accumulation > 5

/-- `getConditionType()` of each `WeatherCondition` subclass. -/
def getConditionType : WeatherCondition → String
  | .clear _ _ _ => "clear"
  | .cloudy _ _ _ _ => "cloudy"
  | .rain _ _ _ _ => "rain"
  | .storm _ _ _ _ _ => "storm"
  | .fog _ _ _ _ => "fog"
  | .snow _ _ _ _ _ => "snow"

end WeatherCondition

/-- One entry of the OpenWeatherMap `weather` array (only the numeric
condition code `id` matters to the factory's dispatch). -/
structure WeatherEntry where
  id : ℤ
deriving DecidableEq, Repr

/-- The argument record of `WeatherFactory.createFromApiData`. -/
structure ApiData where
  temp : ℚ
  wind_speed : ℚ
  humidity : ℚ
  visibility : Option ℚ
  clouds : Option ℚ
  weather : List WeatherEntry
deriving DecidableEq, Repr

/-- `data.weather?.[0]?.id || 800`: the first entry's id, with a missing
array, a missing first entry, or a falsy (zero) id defaulting to 800. -/
def effectiveWeatherId (d : ApiData) : ℤ :=
  match d.weather.head? with
  | Option.none => 800
  | Option.some e => if e.id = 0 then 800 else e.id

/-- `data.visibility || 10000` (a falsy zero also defaults). -/
def effectiveVisibility (d : ApiData) : ℚ :=
  match d.visibility with
  | Option.none => 10000
  | Option.some v => if v = 0 then 10000 else v

/-- `data.clouds || 0`. -/
def effectiveClouds (d : ApiData) : ℚ :=
  match d.clouds with
  | Option.none => 0
  | Option.some c => if c = 0 then 0 else c

/-- `WeatherFactory.createFromApiData`: dispatch on the numeric condition
code, deriving the sub-fields from the code's sub-ranges exactly as the
source does. -/
def createFromApiData (d : ApiData) : WeatherCondition :=
  let weatherId := effectiveWeatherId d
  let temp := d.temp
  let wind := d.wind_speed
  let humidity := d.humidity
  let visibility := effectiveVisibility d
  let clouds := effectiveClouds d
  if 200 ≤ weatherId ∧ weatherId < 300 then
    let severity : Severity :=
      if 212 ≤ weatherId then .severe else if 211 ≤ weatherId then .moderate else .light
    let hasLightning := decide (210 ≤ weatherId)
    .storm temp wind humidity severity hasLightning
  else if 300 ≤ weatherId ∧ weatherId < 600 then
    let intensity : Intensity :=
      if 502 ≤ weatherId then .heavy else if 500 ≤ weatherId then .moderate else .light
    .rain temp wind humidity intensity
  else if 600 ≤ weatherId ∧ weatherId < 700 then
    let intensity : Intensity :=
      if 622 ≤ weatherId then .heavy else if 600 ≤ weatherId then .moderate else .light
    .snow temp wind humidity intensity 0
  else if 700 ≤ weatherId ∧ weatherId < 800 then
    .fog temp wind humidity visibility
  else if weatherId = 800 then
    .clear temp wind humidity
  else
    .cloudy temp wind humidity clouds

/-- The variant the spec's selection rule chooses for an effective condition
code, amended so that codes outside every documented range fall through to
the Cloudy variant (the factory's final catch-all branch). -/
def specVariantOf (id : ℤ) : String :=
  if 200 ≤ id ∧ id < 300 then "storm"
  else if 300 ≤ id ∧ id < 600 then "rain"
  else if 600 ≤ id ∧ id < 700 then "snow"
  else if 700 ≤ id ∧ id < 800 then "fog"
  else if id = 800 then "clear"
  else "cloudy"

/-- The closed hierarchy of `ShipmentStatus` subclasses (ShipmentStatus.ts):
PendingStatus, DepartedStatus, InTransitStatus, ArrivedStatus,
DelayedStatus, CancelledStatus. -/
inductive StatusKind where
  | pending
  | departed
  | in_transit
  | arrived
  | delayed
  | cancelled
deriving DecidableEq, Repr, Fintype

namespace StatusKind

/-- The `statusName` string each subclass passes to the base constructor. -/
def statusName : StatusKind → String
  | .pending => "pending"
  | .departed => "departed"
  | .in_transit => "in_transit"
  | .arrived => "arrived"
  | .delayed => "delayed"
  | .cancelled => "cancelled"

/-- `canTransitionTo(nextStatus)` of each `ShipmentStatus` subclass: a
membership test in that subclass's hard-coded list of allowed target
names (ArrivedStatus and CancelledStatus return false unconditionally). -/
def canTransitionTo : StatusKind → String → Bool
  | .pending, nextStatus => ["departed", "cancelled"].contains nextStatus
  | .departed, nextStatus => ["in_transit", "delayed", "cancelled"].contains nextStatus
  | .in_transit, nextStatus => ["arrived", "delayed"].contains nextStatus
  | .arrived, _ => false
  | .delayed, nextStatus =>
      ["departed", "in_transit", "arrived", "cancelled"].contains nextStatus
  | .cancelled, _ => false

end StatusKind

/-- The legal-transition table as the spec writes it
(source status × target status → allowed). -/
def specAllows : StatusKind → StatusKind → Bool
  | .pending, t => t = .departed ∨ t = .cancelled
  | .departed, t => t = .in_transit ∨ t = .delayed ∨ t = .cancelled
  | .in_transit, t => t = .arrived ∨ t = .delayed
  | .delayed, t => t = .departed ∨ t = .in_transit ∨ t = .arrived ∨ t = .cancelled
  | .arrived, _ => false
  | .cancelled, _ => false

/-- A constructed status object: its kind plus the optional free-text reason
stored by DelayedStatus / CancelledStatus. -/
structure StatusObj where
  kind : StatusKind
  reason : Option String
deriving DecidableEq, Repr

/-- JavaScript's `toLowerCase()` on the ASCII status names: lowercase each
character. -/
def toLowerString (s : String) : String :=
  String.mk (s.data.map Char.toLower)

/-- `StatusFactory.createStatus(statusType, reason?)`: switch on
`statusType.toLowerCase()`, throwing `Unknown status type: ...` on an
unrecognized name; the reason defaults to a fixed placeholder for the
delayed and cancelled variants. -/
def createStatus (statusType : String) (reason : Option String) :
    Except String StatusObj :=
  let s := toLowerString statusType
  if s = "pending" then .ok ⟨.pending, Option.none⟩
  else if s = "departed" then .ok ⟨.departed, Option.none⟩
  else if s = "in_transit" then .ok ⟨.in_transit, Option.none⟩
  else if s = "arrived" then .ok ⟨.arrived, Option.none⟩
  else if s = "delayed" then .ok ⟨.delayed, Option.some (reason.getD "Unknown reason")⟩
  else if s = "cancelled" then .ok ⟨.cancelled, Option.some (reason.getD "No reason provided")⟩
  else .error ("Unknown status type: " ++ statusType)

/-- `StatusFactory.isValidTransition(currentStatus, newStatus)`: constructs
the current status via `createStatus` (so an unknown current-status name
propagates that construction's error) and asks it `canTransitionTo`. -/
def isValidTransition (currentStatus newStatus : String) : Except String Bool :=
  (createStatus currentStatus Option.none).map
    (fun status => status.kind.canTransitionTo newStatus)

/-- The six names `StatusFactory.getValidStatuses()` returns. -/
def validStatuses : List String :=
  ["pending", "departed", "in_transit", "arrived", "delayed", "cancelled"]

/-- The double-quote character, written by code point to keep it out of
string notation. -/
def dquote : Char := Char.ofNat 34

/-- The `value.replace(/"/g, '""')` step of `CSVReport.generate` on a string
value, modelled character by character: every double quote is doubled,
every other character is kept. -/
def escQuotes : List Char → List Char
  | [] => []
  | c :: rest => if c = dquote then c :: c :: escQuotes rest else c :: escQuotes rest

/-- The rendering of a string-valued field by `CSVReport.generate`
(line 163): the value with quotes doubled, wrapped in double quotes. -/
def csvRenderString (v : List Char) : List Char :=
  dquote :: escQuotes v ++ [dquote]

/-- A standard CSV reader's scan of a quoted field body: after the opening
quote, a doubled quote denotes a literal quote character, a lone quote
closes the field, any other character is literal. Returns the decoded
field and the unconsumed remainder, or `none` when the field never
closes. -/
def readQuoted : List Char → Option (List Char × List Char)
  | [] => Option.none
  | c :: rest =>
      if c = dquote then
        match rest with
        | c2 :: rest2 =>
            if c2 = dquote then
              (readQuoted rest2).map (fun p => (dquote :: p.1, p.2))
            else
              Option.some ([], rest)
        | [] => Option.some ([], [])
      else
        (readQuoted rest).map (fun p => (c :: p.1, p.2))

/-- A standard CSV reader's parse of one quoted field: an opening quote
followed by the field body. -/
def parseQuotedField (l : List Char) : Option (List Char × List Char) :=
  match l with
  | c :: rest => if c = dquote then readQuoted rest else Option.none
  | [] => Option.none

/-- An ETA value: a finite number of minutes, or the JavaScript `Infinity`
sentinel returned for non-positive speed. -/
inductive EtaVal where
  | val (minutes : ℤ)
  | infinity
deriving DecidableEq, Repr

/-- The result record of the client's `calculateETA` (ShipmentDetail.tsx):
distance, base ETA, weather-adjusted ETA, and the minutes the weather
adjustment added. -/
structure EtaResult where
  distanceKm : ℚ
  baseEtaMinutes : EtaVal
  etaMinutes : EtaVal
  addedMinutes : ℤ
deriving DecidableEq, Repr

/-- The delay information computed by `getWeatherDelayFactor`: the
multiplier and the displayed severity tier (the display reason string is
not modelled). -/
structure DelayInfo where
  factor : ℚ
  severity : String
deriving DecidableEq, Repr

/-- `getWeatherDelayFactor()` (ShipmentDetail.tsx): when weather data is
absent the multiplier is 1; otherwise it is 1 plus the larger of the
origin and destination delay factors, each `|| 0` when absent. -/
def getWeatherDelayFactor (weather : Option (Option ℚ × Option ℚ)) : DelayInfo :=
  match weather with
  | Option.none => ⟨1, "none"⟩
  | Option.some (origin, dest) =>
    let originDelay := origin.getD 0
    let destDelay := dest.getD 0
    let maxDelay := max originDelay destDelay
    let factor := 1 + maxDelay
    let severity :=
      if maxDelay ≥ 0.4 then "critical"
      else if maxDelay ≥ 0.2 then "high"
      else if maxDelay ≥ 0.1 then "medium"
      else if maxDelay > 0 then "low"
      else "none"
    ⟨factor, severity⟩

/-- The client's `calculateETA` (ShipmentDetail.tsx) and the identical core
of `Flight.calculateETA` (Flight.ts), parametrized by the haversine
distance to the destination and the flight's speed in m/s: speed is
converted to km/h (× 3.6); a non-positive speed yields the infinity
sentinel for both ETAs with 0 added minutes; otherwise the base ETA is
the rounded minutes at that speed, the weather multiplier scales it, and
`addedMinutes` is the difference. `Math.round` is `round` (half toward
+∞) on rationals. -/
def calculateETA (distanceKm speed : ℚ)
    (weather : Option (Option ℚ × Option ℚ)) : EtaResult :=
  let speedKmh := speed * 3.6
  if speedKmh ≤ 0 then
    ⟨distanceKm, .infinity, .infinity, 0⟩
  else
    let hoursToArrival := distanceKm / speedKmh
    let baseEtaMinutes := round (hoursToArrival * 60)
    let weatherDelay := getWeatherDelayFactor weather
    let adjustedMinutes := round ((baseEtaMinutes : ℚ) * weatherDelay.factor)
    ⟨distanceKm, .val baseEtaMinutes, .val adjustedMinutes,
      adjustedMinutes - baseEtaMinutes⟩

/-- `toRad(deg)` of Vehicle.ts: degrees to radians. -/
noncomputable def toRad (deg : ℝ) : ℝ := deg * (Real.pi / 180)

/-- JavaScript's `Math.atan2(y, x)`. -/
noncomputable def atan2 (y x : ℝ) : ℝ :=
  if 0 < x then Real.arctan (y / x)
  else if x < 0 ∧ 0 ≤ y then Real.arctan (y / x) + Real.pi
  else if x < 0 ∧ y < 0 then Real.arctan (y / x) - Real.pi
  else if x = 0 ∧ 0 < y then Real.pi / 2
  else if x = 0 ∧ y < 0 then -(Real.pi / 2)
  else 0

/-- The haversine intermediate value `a` computed by `Vehicle.distanceTo`
(Vehicle.ts) and `calculateDistance` (ShipmentDetail.tsx):
`sin²(dLat/2) + cos(lat1)·cos(lat2)·sin²(dLon/2)` in radians. -/
noncomputable def haversineA (lat1 lon1 lat2 lon2 : ℝ) : ℝ :=
  Real.sin (toRad (lat2 - lat1) / 2) * Real.sin (toRad (lat2 - lat1) / 2) +
    Real.cos (toRad lat1) * Real.cos (toRad lat2) *
      (Real.sin (toRad (lon2 - lon1) / 2) * Real.sin (toRad (lon2 - lon1) / 2))

/-- The haversine great-circle distance implemented identically by
`Vehicle.distanceTo` (Vehicle.ts) and `calculateDistance`
(ShipmentDetail.tsx): Earth radius 6371 km, central angle
`c = 2·atan2(√a, √(1−a))`. -/
noncomputable def haversineDistance (lat1 lon1 lat2 lon2 : ℝ) : ℝ :=
  6371 * (2 * atan2 (Real.sqrt (haversineA lat1 lon1 lat2 lon2))
    (Real.sqrt (1 - haversineA lat1 lon1 lat2 lon2)))

/-- Counterexample to claim C1: a Rain verdict with intensity heavy and
wind speed 20 (> 15) grounds flights, yet its impact is medium, neither
high nor critical. -/
theorem c1_counterexample :
    (WeatherCondition.rain 20 20 50 .heavy).shouldGroundFlights = true ∧
    (WeatherCondition.rain 20 20 50 .heavy).assessImpact = .medium ∧
    ImpactLevel.medium ≠ .high ∧ ImpactLevel.medium ≠ .critical := by
  refine ⟨?_, rfl, by decide, by decide⟩
  simp [WeatherCondition.shouldGroundFlights]
  norm_num

/-- Claim C1, amended: every grounding Storm or Fog verdict has impact
critical and every grounding Snow verdict has impact high, but a grounding
Rain verdict (heavy intensity with wind speed > 15) has impact medium. -/
theorem c1_theorem :
    (∀ (t w h : ℚ) (sev : Severity) (li : Bool),
      (WeatherCondition.storm t w h sev li).shouldGroundFlights = true →
      (WeatherCondition.storm t w h sev li).assessImpact = .critical) ∧
    (∀ (t w h vis : ℚ),
      (WeatherCondition.fog t w h vis).shouldGroundFlights = true →
      (WeatherCondition.fog t w h vis).assessImpact = .critical) ∧
    (∀ (t w h : ℚ) (i : Intensity) (acc : ℚ),
      (WeatherCondition.snow t w h i acc).shouldGroundFlights = true →
      (WeatherCondition.snow t w h i acc).assessImpact = .high) ∧
    (∀ (t w h : ℚ) (i : Intensity),
      (WeatherCondition.rain t w h i).shouldGroundFlights = true →
      (WeatherCondition.rain t w h i).assessImpact = .medium) := by
  refine ⟨?_, ?_, ?_, ?_⟩
  · intro t w h sev li hg
    simp [WeatherCondition.shouldGroundFlights] at hg
    simp [WeatherCondition.assessImpact, hg]
  · intro t w h vis hg
    simp [WeatherCondition.shouldGroundFlights] at hg
    simp [WeatherCondition.assessImpact, hg]
  · intro t w h i acc hg
    simp [WeatherCondition.shouldGroundFlights] at hg
    simp [WeatherCondition.assessImpact, hg.1]
  · intro t w h i hg
    simp [WeatherCondition.shouldGroundFlights] at hg
    simp [WeatherCondition.assessImpact, hg.1]

/-- Witness for C1's amended theorem at concrete grounding verdicts of each
variant. -/
theorem c1_witness :
    (WeatherCondition.storm 10 25 92 .severe true).assessImpact = .critical ∧
    (WeatherCondition.fog 8 3 95 100).assessImpact = .critical ∧
    (WeatherCondition.snow (-5) 8 80 .heavy 6).assessImpact = .high ∧
    (WeatherCondition.rain 15 20 85 .heavy).assessImpact = .medium :=
  ⟨c1_theorem.1 10 25 92 .severe true (by simp [WeatherCondition.shouldGroundFlights]),
   c1_theorem.2.1 8 3 95 100 (by simp [WeatherCondition.shouldGroundFlights]; norm_num),
   c1_theorem.2.2.1 (-5) 8 80 .heavy 6
     (by simp [WeatherCondition.shouldGroundFlights]; norm_num),
   c1_theorem.2.2.2 15 20 85 .heavy
     (by simp [WeatherCondition.shouldGroundFlights]; norm_num)⟩

/-- Counterexample to claim C2: a Cloudy verdict with cloud coverage 95
(> 90) but wind speed 5 (≤ 10) has delay factor 0.05, not the 0 the claim
requires. -/
theorem c2_counterexample :
    (WeatherCondition.cloudy 20 5 50 95).getDelayFactor = 0.05 ∧
    (0.05 : ℚ) ≠ 0 := by
  constructor
  · simp [WeatherCondition.getDelayFactor]
    norm_num
  · norm_num

/-- Claim C2, amended: a Cloudy verdict's delay factor is 0.05 exactly when
cloud coverage > 90, regardless of wind speed (the wind condition applies
only to the low impact level); a Cloudy verdict never grounds flights. -/
theorem c2_theorem : ∀ (t w h cov : ℚ),
    (WeatherCondition.cloudy t w h cov).getDelayFactor =
      (if cov > 90 then 0.05 else 0) ∧
    (WeatherCondition.cloudy t w h cov).shouldGroundFlights = false ∧
    (WeatherCondition.cloudy t w h cov).assessImpact =
      (if cov > 90 ∧ w > 10 then .low else .none) := by
  intro t w h cov
  exact ⟨rfl, rfl, rfl⟩

/-- Claim C4: over the six recognized status names, `canTransitionTo`
agrees exactly with the spec's transition table, and the arrived and
cancelled statuses reject every target string whatsoever. -/
theorem c4_theorem :
    (∀ s t : StatusKind, s.canTransitionTo t.statusName = specAllows s t) ∧
    (∀ target : String,
      StatusKind.arrived.canTransitionTo target = false ∧
      StatusKind.cancelled.canTransitionTo target = false) :=
  ⟨by decide, fun _ => ⟨rfl, rfl⟩⟩

/-- Claim C9: for a current-status name whose lowercase form is not among
the six recognized names, `StatusFactory.isValidTransition` propagates the
`Unknown status type` error from `createStatus` for every target, instead
of returning false. -/
theorem c9_theorem : ∀ currentStatus newStatus : String,
    toLowerString currentStatus ∉ validStatuses →
    isValidTransition currentStatus newStatus =
      .error ("Unknown status type: " ++ currentStatus) := by
  intro c t hmem
  simp only [validStatuses, List.mem_cons, List.not_mem_nil, or_false, not_or] at hmem
  obtain ⟨h1, h2, h3, h4, h5, h6⟩ := hmem
  simp [isValidTransition, createStatus, h1, h2, h3, h4, h5, h6, Except.map]

/-- Witness for C9 at the unrecognized status name "bogus". -/
theorem c9_witness :
    isValidTransition "bogus" "departed" = .error "Unknown status type: bogus" :=
  c9_theorem "bogus" "departed" (by decide)

/-- Counterexample to claim C3: condition code 150 lies outside every
documented range, but the factory falls through to the Cloudy variant,
not Clear. -/
theorem c3_counterexample :
    (createFromApiData ⟨20, 5, 50, Option.none, Option.none, [⟨150⟩]⟩).getConditionType
        = "cloudy" ∧
    ("cloudy" : String) ≠ "clear" := by
  constructor
  · have h : createFromApiData ⟨20, 5, 50, Option.none, Option.none, [⟨150⟩]⟩ =
        WeatherCondition.cloudy 20 5 50 0 := by
      simp [createFromApiData, effectiveWeatherId, effectiveClouds]
    rw [h]
    rfl
  · decide

/-- Claim C3, amended: the factory's variant is `specVariantOf` the
effective condition code (200–299 Storm, 300–599 Rain, 600–699 Snow,
700–799 Fog, exactly 800 Clear, and every other code — above, below, or
between the ranges — falling through to Cloudy); an absent weather array
defaults the code to 800 and so yields Clear with the supplied
temperature, wind and humidity. -/
theorem c3_theorem : ∀ d : ApiData,
    (createFromApiData d).getConditionType = specVariantOf (effectiveWeatherId d) ∧
    (d.weather = [] →
      createFromApiData d = .clear d.temp d.wind_speed d.humidity) := by
  intro d
  constructor
  · simp only [createFromApiData, specVariantOf]
    split_ifs <;> rfl
  · intro h
    have hid : effectiveWeatherId d = 800 := by
      simp [effectiveWeatherId, h]
    simp [createFromApiData, hid]

/-- Witness for C3's amended theorem at an input with an absent weather
array. -/
theorem c3_witness :
    ((createFromApiData ⟨20, 5, 50, Option.none, Option.none, []⟩).getConditionType =
      specVariantOf (effectiveWeatherId ⟨20, 5, 50, Option.none, Option.none, []⟩)) ∧
    createFromApiData ⟨20, 5, 50, Option.none, Option.none, []⟩ =
      WeatherCondition.clear 20 5 50 :=
  ⟨(c3_theorem ⟨20, 5, 50, Option.none, Option.none, []⟩).1,
   (c3_theorem ⟨20, 5, 50, Option.none, Option.none, []⟩).2 rfl⟩

/-- Claim C10: a factory input with condition code in 600–699 yields a
Snow verdict with intensity heavy for codes ≥ 622 and moderate otherwise
(never light) and accumulation 0; such a verdict never grounds flights,
and its impact is high exactly when the code is ≥ 622. -/
theorem c10_theorem : ∀ d : ApiData,
    600 ≤ effectiveWeatherId d → effectiveWeatherId d < 700 →
    createFromApiData d =
      WeatherCondition.snow d.temp d.wind_speed d.humidity
        (if 622 ≤ effectiveWeatherId d then .heavy else .moderate) 0 ∧
    (createFromApiData d).shouldGroundFlights = false ∧
    ((createFromApiData d).assessImpact = .high ↔ 622 ≤ effectiveWeatherId d) := by
  intro d h600 h700
  have hmk : createFromApiData d =
      WeatherCondition.snow d.temp d.wind_speed d.humidity
        (if 622 ≤ effectiveWeatherId d then .heavy else .moderate) 0 := by
    simp only [createFromApiData]
    rw [if_neg (by omega), if_neg (by omega), if_pos ⟨h600, h700⟩]
    by_cases h622 : 622 ≤ effectiveWeatherId d
    · rw [if_pos h622, if_pos h622]
    · rw [if_neg h622, if_neg h622, if_pos h600]
  refine ⟨hmk, ?_, ?_⟩
  · rw [hmk]
    simp [WeatherCondition.shouldGroundFlights]
  · rw [hmk]
    by_cases h622 : 622 ≤ effectiveWeatherId d
    · simp [WeatherCondition.assessImpact, h622]
    · simp [WeatherCondition.assessImpact, h622]

/-- Witness for C10 at a factory input with condition code 650. -/
theorem c10_witness :
    createFromApiData ⟨-5, 8, 80, Option.none, Option.none, [⟨650⟩]⟩ =
      WeatherCondition.snow (-5) 8 80
        (if 622 ≤ effectiveWeatherId ⟨-5, 8, 80, Option.none, Option.none, [⟨650⟩]⟩
          then .heavy else .moderate) 0 ∧
    (createFromApiData ⟨-5, 8, 80, Option.none, Option.none, [⟨650⟩]⟩).shouldGroundFlights
        = false ∧
    ((createFromApiData ⟨-5, 8, 80, Option.none, Option.none, [⟨650⟩]⟩).assessImpact
        = .high ↔
      622 ≤ effectiveWeatherId ⟨-5, 8, 80, Option.none, Option.none, [⟨650⟩]⟩) :=
  c10_theorem ⟨-5, 8, 80, Option.none, Option.none, [⟨650⟩]⟩ (by decide) (by decide)

/-- The spec's `maxDelayFactor`: the larger of the origin and destination
delay factors, each taken as 0 when no weather is supplied. -/
def maxDelayFactor (weather : Option (Option ℚ × Option ℚ)) : ℚ :=
  match weather with
  | Option.none => 0
  | Option.some (origin, dest) => max (origin.getD 0) (dest.getD 0)

/-- The multiplier computed by `getWeatherDelayFactor` is
`1 + maxDelayFactor`. -/
theorem getWeatherDelayFactor_factor (weather : Option (Option ℚ × Option ℚ)) :
    (getWeatherDelayFactor weather).factor = 1 + maxDelayFactor weather := by
  match weather with
  | Option.none => simp [getWeatherDelayFactor, maxDelayFactor]
  | Option.some (origin, dest) => rfl

/-- Claim C5: with non-positive speed and positive distance,
`calculateETA` returns the infinity sentinel for the base ETA rather than
throwing, the weather-adjusted ETA is also infinity, and `addedMinutes`
is 0. -/
theorem c5_theorem : ∀ (distanceKm speed : ℚ)
    (weather : Option (Option ℚ × Option ℚ)),
    0 < distanceKm → speed ≤ 0 →
    calculateETA distanceKm speed weather =
      ⟨distanceKm, .infinity, .infinity, 0⟩ := by
  intro d s w _ hs
  have hkmh : s * 3.6 ≤ 0 := mul_nonpos_iff.mpr (Or.inr ⟨hs, by norm_num⟩)
  simp [calculateETA, hkmh]

/-- Witness for C5 at speed 0 m/s and distance 1 km. -/
theorem c5_witness :
    calculateETA 1 0 Option.none = ⟨1, .infinity, .infinity, 0⟩ :=
  c5_theorem 1 0 Option.none (by norm_num) (by norm_num)

/-- Claim C6: with positive speed (finite base ETA), the base ETA is the
rounded minutes at the converted speed, the adjusted ETA is the base ETA
times `1 + maxDelayFactor` rounded, and `addedMinutes` is their
difference. -/
theorem c6_theorem : ∀ (distanceKm speed : ℚ)
    (weather : Option (Option ℚ × Option ℚ)),
    0 < speed →
    ∃ base : ℤ,
      base = round (distanceKm / (speed * 3.6) * 60) ∧
      (calculateETA distanceKm speed weather).baseEtaMinutes = .val base ∧
      (calculateETA distanceKm speed weather).etaMinutes =
        .val (round ((base : ℚ) * (1 + maxDelayFactor weather))) ∧
      (calculateETA distanceKm speed weather).addedMinutes =
        round ((base : ℚ) * (1 + maxDelayFactor weather)) - base := by
  intro d s w hs
  have hkmh : ¬ s * 3.6 ≤ 0 := not_le.mpr (by positivity)
  refine ⟨round (d / (s * 3.6) * 60), rfl, ?_, ?_, ?_⟩ <;>
    simp [calculateETA, hkmh, getWeatherDelayFactor_factor]

/-- Witness for C6: a flight 100 km out at 10 m/s with weather delay
factors 0.2 at the origin and 0.5 at the destination. -/
theorem c6_witness :
    ∃ base : ℤ,
      base = round ((100 : ℚ) / (10 * 3.6) * 60) ∧
      (calculateETA 100 10
        (Option.some (Option.some 0.2, Option.some 0.5))).baseEtaMinutes = .val base ∧
      (calculateETA 100 10
          (Option.some (Option.some 0.2, Option.some 0.5))).etaMinutes =
        .val (round ((base : ℚ) *
          (1 + maxDelayFactor (Option.some (Option.some 0.2, Option.some 0.5))))) ∧
      (calculateETA 100 10
          (Option.some (Option.some 0.2, Option.some 0.5))).addedMinutes =
        round ((base : ℚ) *
          (1 + maxDelayFactor (Option.some (Option.some 0.2, Option.some 0.5)))) - base :=
  c6_theorem 100 10 (Option.some (Option.some 0.2, Option.some 0.5)) (by norm_num)

/-- Scanning the quote-doubled body up to the closing quote recovers the
original characters and consumes the whole field. -/
theorem readQuoted_escQuotes (v : List Char) :
    readQuoted (escQuotes v ++ [dquote]) = Option.some (v, []) := by
  induction v with
  | nil =>
      simp [escQuotes, readQuoted]
  | cons c rest ih =>
      by_cases hc : c = dquote
      · subst hc
        have he : escQuotes (dquote :: rest) = dquote :: dquote :: escQuotes rest := by
          simp [escQuotes]
        rw [he, List.cons_append, List.cons_append, readQuoted.eq_def]
        simp [ih]
      · have he : escQuotes (c :: rest) = c :: escQuotes rest := by
          simp [escQuotes, hc]
        rw [he, List.cons_append, readQuoted.eq_def]
        simp [hc, ih]

/-- Claim C7: a string value rendered by the CSV report — wrapped in double
quotes with every embedded double quote doubled — is parsed back by a
standard CSV quoted-field reader to exactly the original string, with
nothing left over. -/
theorem c7_theorem : ∀ v : List Char,
    parseQuotedField (csvRenderString v) = Option.some (v, []) := by
  intro v
  simp [parseQuotedField, csvRenderString, readQuoted_escQuotes]

/-- The squared-sine haversine term is unchanged when the two coordinates
swap, since `sin` is odd and the term is a square. -/
theorem sin_toRad_sub_sq_comm (x y : ℝ) :
    Real.sin (toRad (y - x) / 2) * Real.sin (toRad (y - x) / 2) =
      Real.sin (toRad (x - y) / 2) * Real.sin (toRad (x - y) / 2) := by
  have h : toRad (y - x) = -toRad (x - y) := by
    simp only [toRad]
    ring
  rw [h, neg_div, Real.sin_neg]
  ring

/-- The haversine intermediate value is symmetric in its two positions. -/
theorem haversineA_symm (lat1 lon1 lat2 lon2 : ℝ) :
    haversineA lat1 lon1 lat2 lon2 = haversineA lat2 lon2 lat1 lon1 := by
  simp only [haversineA]
  rw [sin_toRad_sub_sq_comm lat1 lat2, sin_toRad_sub_sq_comm lon1 lon2]
  ring

/-- The haversine intermediate value vanishes at coinciding positions. -/
theorem haversineA_self (lat lon : ℝ) : haversineA lat lon lat lon = 0 := by
  simp [haversineA, toRad]

/-- Claim C8: over latitudes in [-90, 90] and longitudes in [-180, 180],
the haversine distance is symmetric and the distance from a position to
itself is 0. -/
theorem c8_theorem : ∀ lat1 lon1 lat2 lon2 : ℝ,
    -90 ≤ lat1 → lat1 ≤ 90 → -90 ≤ lat2 → lat2 ≤ 90 →
    -180 ≤ lon1 → lon1 ≤ 180 → -180 ≤ lon2 → lon2 ≤ 180 →
    haversineDistance lat1 lon1 lat2 lon2 = haversineDistance lat2 lon2 lat1 lon1 ∧
    haversineDistance lat1 lon1 lat1 lon1 = 0 := by
  intro lat1 lon1 lat2 lon2 _ _ _ _ _ _ _ _
  constructor
  · simp only [haversineDistance, haversineA_symm lat1 lon1 lat2 lon2]
  · simp [haversineDistance, haversineA_self, atan2, Real.arctan_zero]

/-- Witness for C8 at the position (10, 20) against (30, 40). -/
theorem c8_witness :
    haversineDistance 10 20 30 40 = haversineDistance 30 40 10 20 ∧
    haversineDistance 10 20 10 20 = 0 :=
  c8_theorem 10 20 30 40 (by norm_num) (by norm_num) (by norm_num) (by norm_num)
    (by norm_num) (by norm_num) (by norm_num) (by norm_num)

end Spec2Proof
